import Mathlib

/-!
Shallow embedding of `src/mcp_client/client.py` (class `CustomMCPClient`).

External collaborators (`generate` of the LLM backend and `call_tool` of the MCP session) are passed in as functions returning `Except String _`, where
`Except.error e` models a raised Python exception with message `e`.
String scanning models the two `re.search` patterns of the source on the
ASCII fragment of `\s` and `\w`; `json.loads` is modelled by a recursive
JSON parser over objects, arrays, strings (basic escapes), integers and
literals.  Side effects that the claims talk about (which prompts were sent
to the model, which tool calls were attempted, what was printed) are made
explicit as fields of the returned records.
-/

namespace MCP

/-- ASCII fragment of the Python regex class backslash-s. -/
def isPySpace (c : Char) : Bool :=
  c = ' ' || c = '\t' || c = '\n' || c = '\x0d' || c = '\x0c' || c = '\x0b'

/-- ASCII fragment of the Python regex class backslash-w. -/
def isWordChar (c : Char) : Bool :=
  c.isAlphanum || c = '_'

/-- Python `str.strip()` on a character list. -/
def pyStripList (cs : List Char) : List Char :=
  ((cs.dropWhile isPySpace).reverse.dropWhile isPySpace).reverse

/-- Python `str.strip()`. -/
def pyStrip (s : String) : String :=
  String.mk (pyStripList s.data)

/-- Python `str.lower()` (ASCII fragment). -/
def pyLower (s : String) : String :=
  String.mk (s.data.map Char.toLower)

/-- Python substring test `needle in hay` on character lists. -/
def hasSubstr (needle : List Char) : List Char → Bool
  | [] => needle.isEmpty
  | c :: cs => needle.isPrefixOf (c :: cs) || hasSubstr needle cs

/-- Python slice `l[-w:]`: for `w = 0` this is `l[0:]`, i.e. the whole
list; otherwise the last `w` elements (all of them if `w ≥ |l|`). -/
def pySliceLast {α : Type} (l : List α) (w : Nat) : List α :=
  if w = 0 then l else l.drop (l.length - w)

/-- Python `", ".join(xs)`. -/
def joinComma : List String → String
  | [] => ""
  | [s] => s
  | s :: rest => s ++ ", " ++ joinComma rest

/-- `Message` dataclass: `role` is "user" or "assistant". -/
structure Message where
  role : String
  content : String
deriving DecidableEq, Repr

/-- One entry of the `self.tools` mapping.  `inputSchema = none` models a
tool without a (truthy) `inputSchema` attribute; `some none` a schema with
no `properties` key; `some (some ps)` a schema whose `properties` keys are
`ps`. -/
structure ToolDescriptor where
  name : String
  description : String
  inputSchema : Option (Option (List String))
deriving DecidableEq, Repr

/-- `format_tools_for_prompt` (lines 68-89). -/
def format_tools_for_prompt (tools : List ToolDescriptor) : String :=
  if tools.isEmpty then ""
  else
    let desc := tools.foldl (fun acc t =>
      let base := acc ++ "- " ++ t.name ++ ": " ++ t.description ++ "\n"
      match t.inputSchema with
      | some (some params) => base ++ "  Parameters: " ++ joinComma params ++ "\n"
      | some none => base
      | none => base)
      "\n\nYou have access to the following tools:\n"
    desc ++ "\nTo use a tool, respond with exactly this format:\n"
      ++ "TOOL_USE: tool_name\n"
      ++ "PARAMETERS: \x7b\"param1\": \"value1\", \"param2\": \"value2\"\x7d\n"
      ++ "\nOnly use tools when they\x27re needed to answer the user\x27s question.\n"

/-- One `f"{msg.role}: {msg.content}\n"` line of the history section. -/
def renderLine (m : Message) : String :=
  m.role ++ ": " ++ m.content ++ "\n"

/-- `build_conversation_context` (lines 91-103).  `max_history` is the
instance attribute `self.max_history` (set to 20 by the constructor). -/
def build_conversation_context (tools : List ToolDescriptor) (max_history : Nat)
    (history : List Message) : String :=
  let context := "You are a helpful AI assistant with access to various tools.\n"
    ++ format_tools_for_prompt tools
  if history.isEmpty then context
  else
    (pySliceLast history max_history).foldl
      (fun acc m => acc ++ m.role ++ ": " ++ m.content ++ "\n")
      (context ++ "\nConversation history:\n")

/-! ### The two `re.search` patterns of `handle_tool_use` (lines 129-130) -/

/-- The literal marker searched by both `"TOOL_USE:" in response` and the
tool-name pattern. -/
def toolUseLit : List Char := "TOOL_USE:".data

/-- The literal `PARAMETERS:` marker of the parameter pattern. -/
def paramsLit : List Char := "PARAMETERS:".data

/-- Does the pattern of the tool-name regex of line 129 match at
the start of `cs`?  If so, return group 1: the maximal word-character run
after the marker and optional whitespace (the run must be non-empty). -/
def matchToolUseAt (cs : List Char) : Option String :=
  if toolUseLit.isPrefixOf cs then
    let w := ((cs.drop toolUseLit.length).dropWhile isPySpace).takeWhile isWordChar
    if w.isEmpty then none else some (String.mk w)
  else none

/-- `re.search` scans left to right for the first position where the
tool-name pattern matches. -/
def searchToolUse : List Char → Option String
  | [] => none
  | c :: cs =>
    match matchToolUseAt (c :: cs) with
    | some w => some w
    | none => searchToolUse cs

/-- The characters strictly before the first closing brace, or `none` when
there is no closing brace.  Models the lazy `.*?` (with `re.DOTALL`) in
`PARAMETERS:\s*(\x7b.*?\x7d)`: the group extends only to the FIRST closing
brace after the opening one, across newlines. -/
def takeToClose : List Char → Option (List Char)
  | [] => none
  | c :: cs => if c = '\x7d' then some [] else (takeToClose cs).map (c :: ·)

/-- Does the parameter pattern match at the start of `cs`?  If so, return
group 1 (an opening brace, the lazily matched body, the first closing
brace). -/
def matchParamsAt (cs : List Char) : Option String :=
  if paramsLit.isPrefixOf cs then
    match (cs.drop paramsLit.length).dropWhile isPySpace with
    | '\x7b' :: rest =>
      match takeToClose rest with
      | some mid => some (String.mk ('\x7b' :: (mid ++ ['\x7d'])))
      | none => none
    | _ => none
  else none

/-- `re.search` for the parameter pattern. -/
def searchParams : List Char → Option String
  | [] => none
  | c :: cs =>
    match matchParamsAt (c :: cs) with
    | some g => some g
    | none => searchParams cs

/-! ### A model of `json.loads` (lines 142-143)

JSON values as parsed from the matched parameter substring.  The model
covers objects, arrays, double-quoted strings with the one-character
escapes, integer numbers, `null`, `true` and `false`; floating-point
literals and `\u` escapes are outside the modelled fragment and are
rejected with a parse error. -/

inductive Json where
  | null
  | bool (b : Bool)
  | num (n : Int)
  | str (s : String)
  | arr (elems : List Json)
  | obj (members : List (String × Json))

/-- JSON whitespace skipping. -/
def skipWs (cs : List Char) : List Char :=
  cs.dropWhile (fun c => c = ' ' || c = '\t' || c = '\n' || c = '\x0d')

/-- Parse the body of a string literal after its opening quote; return the
decoded content and the characters after the closing quote. -/
def parseStringBody : List Char → Option (String × List Char)
  | [] => none
  | '\\' :: esc :: r =>
    let k : Option Char :=
      if esc = '"' then some '"'
      else if esc = '\\' then some '\\'
      else if esc = '/' then some '/'
      else if esc = 'n' then some '\n'
      else if esc = 't' then some '\t'
      else if esc = 'r' then some '\x0d'
      else if esc = 'b' then some '\x08'
      else if esc = 'f' then some '\x0c'
      else none
    match k with
    | some kc => (parseStringBody r).map (fun p => (String.mk (kc :: p.1.data), p.2))
    | none => none
  | '"' :: r => some ("", r)
  | c :: r => (parseStringBody r).map (fun p => (String.mk (c :: p.1.data), p.2))

/-- Digits to a natural number value. -/
def digitsVal (ds : List Char) : Nat :=
  ds.foldl (fun acc d => 10 * acc + (d.toNat - 48)) 0

/-- Parse an integer JSON number at the head of `cs`. -/
def parseNum (cs : List Char) : Except String (Json × List Char) :=
  let (neg, body) :=
    match cs with
    | '-' :: r => (true, r)
    | _ => (false, cs)
  let ds := body.takeWhile Char.isDigit
  let rest := body.dropWhile Char.isDigit
  if ds.isEmpty then .error "Expecting value"
  else
    match rest with
    | '.' :: _ => .error "float literal outside modelled fragment"
    | 'e' :: _ => .error "float literal outside modelled fragment"
    | 'E' :: _ => .error "float literal outside modelled fragment"
    | _ =>
      let n : Int := Int.ofNat (digitsVal ds)
      .ok (.num (if neg then -n else n), rest)

mutual

/-- Parse one JSON value; fuel decreases on every recursive call. -/
def parseJsonV : Nat → List Char → Except String (Json × List Char)
  | 0, _ => .error "depth exhausted"
  | Nat.succ fuel, cs =>
    match skipWs cs with
    | [] => .error "Expecting value"
    | 'n' :: 'u' :: 'l' :: 'l' :: r => .ok (.null, r)
    | 't' :: 'r' :: 'u' :: 'e' :: r => .ok (.bool true, r)
    | 'f' :: 'a' :: 'l' :: 's' :: 'e' :: r => .ok (.bool false, r)
    | '"' :: r =>
      match parseStringBody r with
      | some (s, rest) => .ok (.str s, rest)
      | none => .error "Unterminated string"
    | '\x7b' :: r =>
      match skipWs r with
      | '\x7d' :: r2 => .ok (.obj [], r2)
      | r2 => parseMembers fuel r2 []
    | '[' :: r =>
      match skipWs r with
      | ']' :: r2 => .ok (.arr [], r2)
      | r2 => parseElems fuel r2 []
    | c :: r =>
      if c = '-' || c.isDigit then parseNum (c :: r) else .error "Expecting value"

/-- Parse the members of an object from the first key onwards. -/
def parseMembers : Nat → List Char → List (String × Json) →
    Except String (Json × List Char)
  | 0, _, _ => .error "depth exhausted"
  | Nat.succ fuel, cs, acc =>
    match skipWs cs with
    | '"' :: r =>
      match parseStringBody r with
      | none => .error "Unterminated string"
      | some (k, rest) =>
        match skipWs rest with
        | ':' :: r2 =>
          match parseJsonV fuel r2 with
          | .error e => .error e
          | .ok (v, r3) =>
            match skipWs r3 with
            | ',' :: r4 => parseMembers fuel r4 (acc ++ [(k, v)])
            | '\x7d' :: r4 => .ok (.obj (acc ++ [(k, v)]), r4)
            | _ => .error "expected , or end of object"
        | _ => .error "expected colon"
    | _ => .error "expected property name"

/-- Parse the elements of an array from the first element onwards. -/
def parseElems : Nat → List Char → List Json → Except String (Json × List Char)
  | 0, _, _ => .error "depth exhausted"
  | Nat.succ fuel, cs, acc =>
    match parseJsonV fuel cs with
    | .error e => .error e
    | .ok (v, r) =>
      match skipWs r with
      | ',' :: r2 => parseElems fuel r2 (acc ++ [v])
      | ']' :: r2 => .ok (.arr (acc ++ [v]), r2)
      | _ => .error "expected , or end of array"

end

/-- `json.loads`: parse a complete JSON document (trailing whitespace
allowed, trailing data rejected).  The fuel bound exceeds the number of
recursive calls any parse of `s` can make. -/
def parseJson (s : String) : Except String Json :=
  match parseJsonV (4 * (s.length + 1)) s.data with
  | .error e => .error e
  | .ok (v, rest) => if (skipWs rest).isEmpty then .ok v else .error "Extra data"

/-! ### `call_tool` (lines 47-66) -/

/-- One content fragment of a tool result.  `text = some t` models a
fragment with a `text` attribute of value `t`; `ty` models the optional
`type` attribute; `toStr` models the Python `str(content)` rendering. -/
structure Fragment where
  text : Option String
  ty : Option String
  toStr : String

/-- The result-formatting loop of `call_tool` (lines 55-62): fragments with
a `text` attribute contribute it, fragments whose `type` attribute equals
`"text"` contribute their `str()` rendering, all other fragments add
nothing; each contribution is followed by a newline and the total is
stripped. -/
def formatFragments (frags : List Fragment) : String :=
  pyStrip (frags.foldl (fun acc f =>
    match f.text with
    | some t => acc ++ t ++ "\n"
    | none =>
      match f.ty with
      | some tyv => if tyv = "text" then acc ++ f.toStr ++ "\n" else acc
      | none => acc) "")

/-- `call_tool`: run the remote call; on success format the fragments, on a
raised exception return the diagnostic string of line 66. -/
def call_tool (callRemote : String → List (String × Json) → Except String (List Fragment))
    (tool_name : String) (arguments : List (String × Json)) : String :=
  match callRemote tool_name arguments with
  | .ok frags => formatFragments frags
  | .error e => "Error calling tool " ++ tool_name ++ ": " ++ e

/-! ### Directive parsing (lines 129-144) -/

/-- Outcome of the parsing prefix of `handle_tool_use`: the early return of
line 133 (`unparsable`), the early return of line 144 (`malformed`), or a
tool name with parsed arguments. -/
inductive ParseOutcome where
  | unparsable
  | malformed (toolName : String) (err : String)
  | ok (toolName : String) (arguments : List (String × Json))

/-- The arguments mapping extracted from a parsed JSON value.  The matched
parameter substring always starts with an opening brace, so a successful
parse is always an object and the other branches are unreachable. -/
def jsonToArgs : Json → List (String × Json)
  | .obj kvs => kvs
  | _ => []

/-- Lines 129-144 of `handle_tool_use`: search for the tool name, then for
the parameter group; a missing parameter group leaves the arguments empty,
a group that fails to parse as JSON is the `malformed` outcome. -/
def parseDirective (response : String) : ParseOutcome :=
  match searchToolUse response.data with
  | none => .unparsable
  | some tool_name =>
    let tool_name := pyStrip tool_name
    match searchParams response.data with
    | none => .ok tool_name []
    | some g =>
      match parseJson (pyStrip g) with
      | .error e => .malformed tool_name e
      | .ok j => .ok tool_name (jsonToArgs j)

/-! ### `handle_tool_use` (lines 125-173) -/

/-- The follow-up prompt of lines 155-163 (an f-string with three holes). -/
def final_prompt_template (original_input tool_name tool_result : String) : String :=
  "\nUser asked: " ++ original_input
    ++ "\n\nI used the tool \x27" ++ tool_name ++ "\x27 and got this result:\n"
    ++ tool_result
    ++ "\n\nPlease provide a natural, helpful response to the user based on this information.\n"
    ++ "Don\x27t mention the technical details of tool usage - just give a clear answer.\n"

/-- What one call to `handle_tool_use` produced: the returned string, the
conversation history afterwards, the tool calls attempted against the
session, and the prompts sent to the LLM backend. -/
structure TurnResult where
  output : String
  history : List Message
  toolCalls : List (String × List (String × Json))
  llmPrompts : List String

/-- `handle_tool_use`: parse the directive, check the catalog, call the
tool, send the follow-up prompt, append the final reply to history.  The
surrounding `try` of lines 127-173 catches an exception raised by the
second `generate` call and turns it into the line-173 diagnostic (the tool
call itself cannot raise: `call_tool` catches internally). -/
def handle_tool_use (gen : String → Except String String)
    (callRemote : String → List (String × Json) → Except String (List Fragment))
    (tools : List ToolDescriptor) (history : List Message)
    (response original_input : String) : TurnResult :=
  match parseDirective response with
  | .unparsable =>
    ⟨"I tried to use a tool but couldn\x27t parse the tool name.", history, [], []⟩
  | .malformed tool_name e =>
    ⟨"I tried to use " ++ tool_name ++ " but the parameters were malformed: " ++ e,
      history, [], []⟩
  | .ok tool_name parameters =>
    if (tools.map ToolDescriptor.name).contains tool_name then
      let tool_result := call_tool callRemote tool_name parameters
      let fp := final_prompt_template original_input tool_name tool_result
      match gen fp with
      | .ok final_response =>
        ⟨final_response, history ++ [⟨"assistant", final_response⟩],
          [(tool_name, parameters)], [fp]⟩
      | .error e =>
        ⟨"I encountered an error while using the tool: " ++ e, history,
          [(tool_name, parameters)], [fp]⟩
    else
      ⟨"Tool \x27" ++ tool_name ++ "\x27 not found. Available tools: "
          ++ joinComma (tools.map ToolDescriptor.name),
        history, [], []⟩

/-! ### `process_user_input` (lines 105-123) -/

/-- The prompt sent to the first `generate` call of a turn (lines 111-112):
the rendered context over the history with the user message already
appended, followed by the trailing cue. -/
def firstPrompt (tools : List ToolDescriptor) (max_history : Nat)
    (history1 : List Message) (user_input : String) : String :=
  build_conversation_context tools max_history history1
    ++ "\nuser: " ++ user_input ++ "\nassistant: "

/-- What one call to `process_user_input` produced.  `outcome = .error e`
models the exception of a failed first `generate` call propagating out of
`process_user_input` (the call is not wrapped in a `try`). -/
structure PTurnResult where
  history : List Message
  outcome : Except String String
  toolCalls : List (String × List (String × Json))
  llmPrompts : List String

/-- `process_user_input`: append the user message, build the prompt, call
the model; dispatch to `handle_tool_use` when the reply contains the
`TOOL_USE:` marker, otherwise append the reply as the assistant message. -/
def process_user_input (gen : String → Except String String)
    (callRemote : String → List (String × Json) → Except String (List Fragment))
    (tools : List ToolDescriptor) (max_history : Nat)
    (history : List Message) (user_input : String) : PTurnResult :=
  let history1 := history ++ [⟨"user", user_input⟩]
  let context := firstPrompt tools max_history history1 user_input
  match gen context with
  | .error e => ⟨history1, .error e, [], [context]⟩
  | .ok response =>
    if hasSubstr toolUseLit response.data then
      let r := handle_tool_use gen callRemote tools history1 response user_input
      ⟨r.history, .ok r.output, r.toolCalls, context :: r.llmPrompts⟩
    else
      ⟨history1 ++ [⟨"assistant", response⟩], .ok response, [], [context]⟩

/-! ### One iteration of `interactive_session` (lines 182-223) -/

/-- The quit commands of line 186. -/
def quitWords : List String := ["quit", "exit", "bye"]

/-- The `tools` command listing (lines 191-194). -/
def toolsListing (tools : List ToolDescriptor) : String :=
  tools.foldl (fun acc t => acc ++ "  - " ++ t.name ++ ": " ++ t.description ++ "\n")
    "\n📚 Available tools:\n"

/-- Python `s[:100]` on a string. -/
def pyTrunc100 (s : String) : String :=
  String.mk (s.data.take 100)

/-- The `history` command listing (lines 197-201): the last 10 messages,
enumerated from 1, contents truncated to 100 characters. -/
def historyListing (history : List Message) : String :=
  ((List.enumFrom 1 (pySliceLast history 10)).foldl
    (fun acc p => acc ++ "  " ++ toString p.1 ++ ". " ++ p.2.role ++ ": "
      ++ pyTrunc100 p.2.content ++ "...\n")
    "\n📜 Conversation History:\n")

/-- What one iteration of the `while True` loop produced: the history
afterwards, whether the loop was left, and what was printed. -/
structure ShellStepResult where
  history : List Message
  terminated : Bool
  printed : List String
deriving DecidableEq, Repr

/-- One iteration of `interactive_session` on the line `rawInput`: strip,
dispatch the shell commands, otherwise run `process_user_input`; the
`except Exception` handler of lines 222-223 catches a propagating fault,
prints the diagnostic and continues the loop. -/
def shellStep (gen : String → Except String String)
    (callRemote : String → List (String × Json) → Except String (List Fragment))
    (tools : List ToolDescriptor) (max_history : Nat)
    (history : List Message) (rawInput : String) : ShellStepResult :=
  let user_input := pyStrip rawInput
  if quitWords.contains (pyLower user_input) then
    ⟨history, true, ["👋 Goodbye!"]⟩
  else if pyLower user_input = "tools" then
    ⟨history, false, [toolsListing tools]⟩
  else if pyLower user_input = "history" then
    ⟨history, false, [historyListing history]⟩
  else if pyLower user_input = "clear" then
    ⟨[], false, ["🧹 Conversation history cleared!"]⟩
  else if user_input = "" then
    ⟨history, false, []⟩
  else
    let r := process_user_input gen callRemote tools max_history history user_input
    match r.outcome with
    | .ok response => ⟨r.history, false, ["\n🤖 Assistant: " ++ response ++ "\n"]⟩
    | .error e => ⟨r.history, false, ["❌ Error: " ++ e]⟩

/-! ### Supporting lemmas -/

/-- Concatenation of a list of strings. -/
def catStrings : List String → String
  | [] => ""
  | s :: rest => s ++ catStrings rest

theorem foldl_render (l : List Message) : ∀ start : String,
    l.foldl (fun acc m => acc ++ m.role ++ ": " ++ m.content ++ "\n") start
      = start ++ catStrings (l.map renderLine) := by
  induction l with
  | nil => intro start; simp [catStrings]
  | cons m rest ih =>
    intro start
    rw [List.foldl_cons, ih]
    simp only [List.map_cons, catStrings, renderLine, String.append_assoc]

theorem pySliceLast_eq_drop {α : Type} (l : List α) (w : Nat) (hw : 1 ≤ w) :
    pySliceLast l w = l.drop (l.length - w) := by
  unfold pySliceLast
  rw [if_neg (by omega : ¬ w = 0)]

theorem pySliceLast_length {α : Type} (l : List α) (w : Nat) (hw : 1 ≤ w) :
    (pySliceLast l w).length = min l.length w := by
  rw [pySliceLast_eq_drop l w hw, List.length_drop]
  omega

theorem pySliceLast_append_last {α : Type} (l : List α) (u : α) (w : Nat) :
    ∃ p : List α, pySliceLast (l ++ [u]) w = p ++ [u] := by
  by_cases h0 : w = 0
  · exact ⟨l, by simp [pySliceLast, h0]⟩
  · refine ⟨l.drop ((l ++ [u]).length - w), ?_⟩
    rw [pySliceLast_eq_drop _ _ (by omega)]
    rw [List.drop_append_eq_append_drop]
    have hle : (l ++ [u]).length - w - l.length = 0 := by
      simp only [List.length_append, List.length_cons, List.length_nil]
      omega
    rw [hle, List.drop_zero]

theorem takeToClose_not_mem : ∀ (cs mid : List Char),
    takeToClose cs = some mid → '\x7d' ∉ mid := by
  intro cs
  induction cs with
  | nil => intro mid h; cases h
  | cons c cs ih =>
    intro mid h
    unfold takeToClose at h
    by_cases hc : c = '\x7d'
    · rw [if_pos hc] at h
      cases h
      intro hx
      cases hx
    · rw [if_neg hc] at h
      cases hrec : takeToClose cs with
      | none => rw [hrec] at h; cases h
      | some m =>
        rw [hrec] at h
        have h2 : some (c :: m) = some mid := h
        cases h2
        intro hmem
        rcases List.mem_cons.mp hmem with h1 | h1
        · exact hc h1.symm
        · exact ih m hrec h1

theorem matchParamsAt_shape (cs : List Char) (g : String)
    (h : matchParamsAt cs = some g) :
    ∃ mid : List Char, g.data = '\x7b' :: (mid ++ ['\x7d']) ∧ '\x7d' ∉ mid := by
  unfold matchParamsAt at h
  split at h
  · split at h
    · rename_i rest _
      cases hrec : takeToClose rest with
      | none => rw [hrec] at h; cases h
      | some mid =>
        rw [hrec] at h
        simp only [Option.some.injEq] at h
        exact ⟨mid, by rw [← h], takeToClose_not_mem rest mid hrec⟩
    · cases h
  · cases h

theorem searchParams_shape : ∀ (cs : List Char) (g : String),
    searchParams cs = some g →
    ∃ mid : List Char, g.data = '\x7b' :: (mid ++ ['\x7d']) ∧ '\x7d' ∉ mid := by
  intro cs
  induction cs with
  | nil => intro g h; cases h
  | cons c cs ih =>
    intro g h
    unfold searchParams at h
    cases hm : matchParamsAt (c :: cs) with
    | some g2 =>
      rw [hm] at h
      cases h
      exact matchParamsAt_shape _ _ hm
    | none =>
      rw [hm] at h
      exact ih g h

theorem build_context_append_user (tools : List ToolDescriptor) (w : Nat)
    (history : List Message) (input : String) :
    ∃ X : String, build_conversation_context tools w (history ++ [⟨"user", input⟩])
      = X ++ ("user: " ++ input ++ "\n") := by
  obtain ⟨p, hp⟩ := pySliceLast_append_last history (⟨"user", input⟩ : Message) w
  refine ⟨p.foldl (fun acc m => acc ++ m.role ++ ": " ++ m.content ++ "\n")
    ("You are a helpful AI assistant with access to various tools.\n"
      ++ format_tools_for_prompt tools ++ "\nConversation history:\n"), ?_⟩
  have hne : (history ++ [(⟨"user", input⟩ : Message)]).isEmpty = false := by
    cases history <;> rfl
  unfold build_conversation_context
  simp only [hne, Bool.false_eq_true, if_false, hp, List.foldl_append,
    List.foldl_cons, List.foldl_nil]
  have hl : ∀ z : String, "user" ++ (": " ++ z) = "user: " ++ z := by
    intro z
    have h1 : ("user" ++ ": " : String) = "user: " := rfl
    rw [← String.append_assoc, h1]
  simp only [String.append_assoc, hl]

/-! ### Claim C1 -/

/-- Claim C1, counterexample.  With the tool `search` loaded and a provider
that raises, the turn makes the second model call (one prompt is sent after
the failure) and returns the model reply, not a direct diagnostic; and with
an empty catalog the unknown-tool diagnostic is returned but nothing is
appended to the history. -/
theorem C1_counterexample :
    (handle_tool_use (fun _ => Except.ok "final answer") (fun _ _ => Except.error "boom")
        [⟨"search", "d", none⟩] [] "TOOL_USE: search" "q").llmPrompts.length = 1
    ∧ (handle_tool_use (fun _ => Except.ok "final answer") (fun _ _ => Except.error "boom")
        [⟨"search", "d", none⟩] [] "TOOL_USE: search" "q").output = "final answer"
    ∧ (handle_tool_use (fun _ => Except.ok "final answer") (fun _ _ => Except.error "boom")
        [] [] "TOOL_USE: search" "q").output
      = "Tool \x27search\x27 not found. Available tools: "
    ∧ (handle_tool_use (fun _ => Except.ok "final answer") (fun _ _ => Except.error "boom")
        [] [] "TOOL_USE: search" "q").history = [] :=
  ⟨rfl, rfl, rfl, rfl⟩

/-- Claim C1 (amended): when the parsed tool name is absent from the
catalog, the second model call is skipped and a direct diagnostic string is
the output of the turn, but it is not appended to the history; when the
provider call raises an error, the error is rendered as the diagnostic
tool-result string and the second model call still happens, on a prompt
embedding that diagnostic. -/
theorem C1_amended (gen : String → Except String String)
    (callRemote : String → List (String × Json) → Except String (List Fragment))
    (tools : List ToolDescriptor) (history : List Message)
    (response input tool_name : String) (args : List (String × Json)) (e : String)
    (hp : parseDirective response = .ok tool_name args) :
    ((tools.map ToolDescriptor.name).contains tool_name = false →
      handle_tool_use gen callRemote tools history response input
        = ⟨"Tool \x27" ++ tool_name ++ "\x27 not found. Available tools: "
            ++ joinComma (tools.map ToolDescriptor.name), history, [], []⟩)
    ∧ ((tools.map ToolDescriptor.name).contains tool_name = true →
      callRemote tool_name args = .error e →
      (handle_tool_use gen callRemote tools history response input).llmPrompts
        = [final_prompt_template input tool_name
            ("Error calling tool " ++ tool_name ++ ": " ++ e)]) := by
  constructor
  · intro hn
    simp only [handle_tool_use, hp]
    rw [if_neg (by rw [hn]; exact Bool.false_ne_true)]
  · intro hy he
    simp only [handle_tool_use, hp]
    rw [if_pos hy]
    simp only [call_tool, he]
    cases gen (final_prompt_template input tool_name
        ("Error calling tool " ++ tool_name ++ ": " ++ e)) <;> rfl

/-- Claim C1, witness: the amended theorem applied with an empty catalog at
the response `TOOL_USE: search`. -/
theorem C1_witness :
    handle_tool_use (fun _ => Except.ok "r") (fun _ _ => Except.error "boom") [] []
        "TOOL_USE: search" "q"
      = ⟨"Tool \x27search\x27 not found. Available tools: ", [], [], []⟩ :=
  (C1_amended (fun _ => Except.ok "r") (fun _ _ => Except.error "boom") [] []
    "TOOL_USE: search" "q" "search" [] "boom" rfl).1 rfl

/-! ### Claim C2 -/

/-- Is the outcome the `MalformedParameters` diagnostic? -/
def isMalformedOutcome : ParseOutcome → Bool
  | .malformed _ _ => true
  | _ => false

/-- Claim C2, counterexample.  On the exact input of the claim the
parameter pattern finds no group at all (there is no closing brace), so
parsing yields a zero-argument request for `search` and not a
`MalformedParameters` condition. -/
theorem C2_counterexample :
    parseDirective "TOOL_USE: search\nPARAMETERS: \x7bbad json"
      = ParseOutcome.ok "search" []
    ∧ isMalformedOutcome (parseDirective "TOOL_USE: search\nPARAMETERS: \x7bbad json")
      = false
    ∧ searchParams "TOOL_USE: search\nPARAMETERS: \x7bbad json".data = none :=
  ⟨rfl, rfl, rfl⟩

/-- Claim C2 (amended): for every response with a parsable tool name and a
`PARAMETERS:` marker followed by a brace-delimited group, if the group is
not valid JSON then parsing yields the `MalformedParameters` outcome
carrying the intended tool name and the parse error (and, being a total
function, never an uncaught fault); when no closing brace follows the
marker, no group is found and the arguments default to empty instead. -/
theorem C2_amended (response tname g e : String)
    (h1 : searchToolUse response.data = some tname)
    (h2 : searchParams response.data = some g)
    (h3 : parseJson (pyStrip g) = .error e) :
    parseDirective response = .malformed (pyStrip tname) e := by
  unfold parseDirective
  rw [h1]
  simp only [h2, h3]

/-- Claim C2, witness: the amended theorem applied to
`TOOL_USE: search` followed by the non-JSON group `\x7bbad\x7d`. -/
theorem C2_witness :
    searchToolUse "TOOL_USE: search\nPARAMETERS: \x7bbad\x7d".data = some "search"
    ∧ searchParams "TOOL_USE: search\nPARAMETERS: \x7bbad\x7d".data = some "\x7bbad\x7d"
    ∧ parseJson (pyStrip "\x7bbad\x7d") = Except.error "expected property name"
    ∧ parseDirective "TOOL_USE: search\nPARAMETERS: \x7bbad\x7d"
      = ParseOutcome.malformed "search" "expected property name" :=
  ⟨rfl, rfl, rfl,
    C2_amended "TOOL_USE: search\nPARAMETERS: \x7bbad\x7d" "search" "\x7bbad\x7d"
      "expected property name" rfl rfl rfl⟩

/-! ### Claim C3 -/

/-- Claim C3, counterexample.  For a nested object the matched group stops
at the FIRST closing brace, truncating the object; the truncated group is
not valid JSON, so parsing yields `MalformedParameters` instead of the
arguments of the nested object. -/
theorem C3_counterexample :
    searchParams "TOOL_USE: t\nPARAMETERS: \x7b\"a\": \x7b\"b\": 1\x7d\x7d".data
      = some "\x7b\"a\": \x7b\"b\": 1\x7d"
    ∧ parseDirective "TOOL_USE: t\nPARAMETERS: \x7b\"a\": \x7b\"b\": 1\x7d\x7d"
      = ParseOutcome.malformed "t" "expected , or end of object" :=
  ⟨rfl, rfl⟩

/-- Claim C3 (amended): the matched parameter group is the substring from
the first opening brace after the `PARAMETERS:` marker to the FIRST closing
brace after it (across newlines, the body never containing a closing
brace, so objects with nested braces are truncated); when that group parses
as a JSON object the parsed arguments are exactly its string-keyed
members. -/
theorem C3_amended (response tname g : String)
    (h1 : searchToolUse response.data = some tname)
    (h2 : searchParams response.data = some g) :
    (∃ mid : List Char, g.data = '\x7b' :: (mid ++ ['\x7d']) ∧ '\x7d' ∉ mid)
    ∧ ∀ kvs : List (String × Json), parseJson (pyStrip g) = .ok (Json.obj kvs) →
        parseDirective response = .ok (pyStrip tname) kvs := by
  constructor
  · exact searchParams_shape response.data g h2
  · intro kvs h3
    unfold parseDirective
    rw [h1]
    simp only [h2, h3, jsonToArgs]

/-- Claim C3, witness: the amended theorem applied to a flat object, whose
members parse as the arguments mapping. -/
theorem C3_witness :
    searchToolUse "TOOL_USE: search\nPARAMETERS: \x7b\"q\": \"weather\"\x7d".data
      = some "search"
    ∧ searchParams "TOOL_USE: search\nPARAMETERS: \x7b\"q\": \"weather\"\x7d".data
      = some "\x7b\"q\": \"weather\"\x7d"
    ∧ parseDirective "TOOL_USE: search\nPARAMETERS: \x7b\"q\": \"weather\"\x7d"
      = ParseOutcome.ok "search" [("q", Json.str "weather")] :=
  ⟨rfl, rfl,
    (C3_amended "TOOL_USE: search\nPARAMETERS: \x7b\"q\": \"weather\"\x7d" "search"
      "\x7b\"q\": \"weather\"\x7d" rfl rfl).2 [("q", Json.str "weather")] rfl⟩

/-! ### Claim C4 -/

/-- What one fragment contributes to the result text under the source
formatting loop: its `text` attribute when present, its `str()` rendering
when its `type` attribute equals `"text"`, and nothing otherwise. -/
def fragmentContribution (f : Fragment) : Option String :=
  match f.text with
  | some t => some t
  | none =>
    match f.ty with
    | some tyv => if tyv = "text" then some f.toStr else none
    | none => none

/-- Result formatting as the words of the claim describe it: EVERY fragment
contributes, those without a textual payload via the fallback
stringification; contributions are joined by newlines and the result is
trimmed.  Stated for comparison against the `formatFragments` of the
source. -/
def formatFragmentsSpec (frags : List Fragment) : String :=
  pyStrip (String.intercalate "\n" (frags.map (fun f =>
    match f.text with
    | some t => t
    | none => f.toStr)))

theorem formatFragments_foldl (frags : List Fragment) : ∀ acc : String,
    frags.foldl (fun acc f =>
      match f.text with
      | some t => acc ++ t ++ "\n"
      | none =>
        match f.ty with
        | some tyv => if tyv = "text" then acc ++ f.toStr ++ "\n" else acc
        | none => acc) acc
      = acc ++ catStrings ((frags.filterMap fragmentContribution).map
          (fun s => s ++ "\n")) := by
  induction frags with
  | nil => intro acc; simp [catStrings]
  | cons f rest ih =>
    intro acc
    rw [List.foldl_cons, ih]
    cases hft : f.text with
    | some t =>
      simp [fragmentContribution, hft, catStrings, String.append_assoc]
    | none =>
      cases hty : f.ty with
      | some tyv =>
        by_cases htxt : tyv = "text"
        · simp [fragmentContribution, hft, hty, htxt, catStrings,
            String.append_assoc]
        · simp [fragmentContribution, hft, hty, htxt]
      | none => simp [fragmentContribution, hft, hty]

/-- Claim C4, counterexample.  A fragment with no `text` attribute and a
`type` attribute other than `"text"` is dropped by the source, while the
formatting the claim describes would render it via the fallback
stringification. -/
theorem C4_counterexample :
    formatFragments [⟨some "a", some "text", "ra"⟩, ⟨none, some "image", "IMG"⟩] = "a"
    ∧ formatFragmentsSpec [⟨some "a", some "text", "ra"⟩, ⟨none, some "image", "IMG"⟩]
      = "a\nIMG"
    ∧ formatFragments [⟨some "a", some "text", "ra"⟩, ⟨none, some "image", "IMG"⟩]
      ≠ formatFragmentsSpec [⟨some "a", some "text", "ra"⟩, ⟨none, some "image", "IMG"⟩] :=
  ⟨rfl, rfl, by decide⟩

/-- Claim C4 (amended): on a successful tool call the normalized result
text is the newline-terminated concatenation of the contributions of the
fragments, trimmed; a fragment contributes its textual payload when it has
one, its fallback stringification when it declares type `"text"`, and is
dropped otherwise. -/
theorem C4_amended
    (callRemote : String → List (String × Json) → Except String (List Fragment))
    (tname : String) (args : List (String × Json)) (frags : List Fragment)
    (h : callRemote tname args = Except.ok frags) :
    call_tool callRemote tname args
      = pyStrip (catStrings ((frags.filterMap fragmentContribution).map
          (fun s => s ++ "\n"))) := by
  have hc : call_tool callRemote tname args = formatFragments frags := by
    unfold call_tool
    rw [h]
  rw [hc]
  unfold formatFragments
  rw [formatFragments_foldl]
  have hemp : ∀ s : String, "" ++ s = s := by
    intro s
    apply String.ext
    simp [String.data_append]
  rw [hemp]

/-- The two content fragments of the C4 witness. -/
def c4Frags : List Fragment :=
  [⟨some "a", some "text", "ra"⟩, ⟨none, some "image", "IMG"⟩]

/-- A provider returning the two witness fragments. -/
def c4Remote : String → List (String × Json) → Except String (List Fragment) :=
  fun _ _ => Except.ok c4Frags

/-- Claim C4, witness: the amended theorem applied to the two-fragment
provider, the second fragment being dropped. -/
theorem C4_witness :
    c4Remote "t" [] = Except.ok c4Frags
    ∧ call_tool c4Remote "t" []
      = pyStrip (catStrings ((c4Frags.filterMap fragmentContribution).map
          (fun s => s ++ "\n")))
    ∧ call_tool c4Remote "t" [] = "a" :=
  ⟨rfl, C4_amended c4Remote "t" [] c4Frags rfl, rfl⟩

/-! ### Claim C5 -/

/-- Claim C5, counterexample.  With window size 0 the slice `[-0:]` is the
WHOLE history, so the rendered context contains one message where
`min(|H|, 0) = 0` messages were claimed. -/
theorem C5_counterexample :
    pySliceLast ([⟨"user", "hi"⟩] : List Message) 0 = [⟨"user", "hi"⟩]
    ∧ (pySliceLast ([⟨"user", "hi"⟩] : List Message) 0).length
      ≠ min ([(⟨"user", "hi"⟩ : Message)] : List Message).length 0
    ∧ build_conversation_context [] 0 [⟨"user", "hi"⟩]
      = "You are a helpful AI assistant with access to various tools.\n"
        ++ "\nConversation history:\n" ++ "user: hi\n" :=
  ⟨rfl, by decide, rfl⟩

/-- Claim C5 (amended): for every history H and every window size W with
W ≥ 1 (in particular the default 20 of the constructor), the rendered
context contains exactly min(|H|, W) messages, namely the most recent W
messages of H — the suffix dropped at |H| − W — formatted one per line as
role, colon, content in their original order.  (For W = 0 the slice
`[-0:]` degenerates to the whole history.) -/
theorem C5_amended (tools : List ToolDescriptor) (w : Nat) (h : List Message)
    (hw : 1 ≤ w) :
    (pySliceLast h w).length = min h.length w
    ∧ pySliceLast h w = h.drop (h.length - w)
    ∧ (h ≠ [] → build_conversation_context tools w h
        = "You are a helpful AI assistant with access to various tools.\n"
          ++ format_tools_for_prompt tools ++ "\nConversation history:\n"
          ++ catStrings ((pySliceLast h w).map renderLine)) := by
  refine ⟨pySliceLast_length h w hw, pySliceLast_eq_drop h w hw, ?_⟩
  intro hne
  have hne2 : h.isEmpty = false := by
    cases h with
    | nil => exact absurd rfl hne
    | cons a l => rfl
  unfold build_conversation_context
  simp only [hne2, Bool.false_eq_true, if_false]
  rw [foldl_render]

/-- Claim C5, witness: the amended theorem at the default window 20 on a
two-message history. -/
theorem C5_witness :
    (pySliceLast ([⟨"user", "hi"⟩, ⟨"assistant", "yo"⟩] : List Message) 20).length
      = min ([(⟨"user", "hi"⟩ : Message), ⟨"assistant", "yo"⟩] : List Message).length 20 :=
  (C5_amended [] 20 [⟨"user", "hi"⟩, ⟨"assistant", "yo"⟩] (by decide)).1

/-! ### Claim C6 -/

/-- Claim C6 (confirmed): a fault raised while obtaining the first model
reply propagates out of `process_user_input` and is caught by the
surrounding shell loop, which prints the diagnostic string and keeps
running; the user message appended at the start of the turn remains in
history and no assistant message is appended. -/
theorem C6_confirmed (gen : String → Except String String)
    (callRemote : String → List (String × Json) → Except String (List Fragment))
    (tools : List ToolDescriptor) (w : Nat) (history : List Message)
    (rawInput s e : String)
    (hs : pyStrip rawInput = s)
    (h1 : quitWords.contains (pyLower s) = false)
    (h2 : pyLower s ≠ "tools") (h3 : pyLower s ≠ "history")
    (h4 : pyLower s ≠ "clear") (h5 : s ≠ "")
    (hg : gen (firstPrompt tools w (history ++ [⟨"user", s⟩]) s) = .error e) :
    shellStep gen callRemote tools w history rawInput
      = ⟨history ++ [⟨"user", s⟩], false, ["❌ Error: " ++ e]⟩ := by
  have hpe : process_user_input gen callRemote tools w history s
      = ⟨history ++ [⟨"user", s⟩], .error e, [],
          [firstPrompt tools w (history ++ [⟨"user", s⟩]) s]⟩ := by
    simp only [process_user_input, hg]
  simp only [shellStep, hs]
  rw [if_neg (by rw [h1]; exact Bool.false_ne_true)]
  rw [if_neg h2, if_neg h3, if_neg h4, if_neg h5]
  rw [hpe]

/-- Claim C6, witness: a backend that always raises, on the input
`hello`. -/
theorem C6_witness :
    shellStep (fun _ => Except.error "boom") (fun _ _ => Except.ok []) [] 20 [] "hello"
      = ⟨[⟨"user", "hello"⟩], false, ["❌ Error: boom"]⟩ :=
  C6_confirmed (fun _ => Except.error "boom") (fun _ _ => Except.ok []) [] 20 []
    "hello" "hello" "boom" rfl rfl (by decide) (by decide) (by decide) (by decide) rfl

/-! ### Claim C7 -/

/-- Claim C7 (confirmed): a parsed tool name absent from the catalog makes
`handle_tool_use` return the unknown-tool diagnostic listing every loaded
tool name; no provider call is attempted, no second model call happens and
the history is unchanged. -/
theorem C7_confirmed (gen : String → Except String String)
    (callRemote : String → List (String × Json) → Except String (List Fragment))
    (tools : List ToolDescriptor) (history : List Message)
    (response input tool_name : String) (args : List (String × Json))
    (hp : parseDirective response = .ok tool_name args)
    (hn : (tools.map ToolDescriptor.name).contains tool_name = false) :
    handle_tool_use gen callRemote tools history response input
      = ⟨"Tool \x27" ++ tool_name ++ "\x27 not found. Available tools: "
          ++ joinComma (tools.map ToolDescriptor.name), history, [], []⟩ := by
  simp only [handle_tool_use, hp]
  rw [if_neg (by rw [hn]; exact Bool.false_ne_true)]

/-- Claim C7, witness: with only `get_weather` loaded, the response
`TOOL_USE: search` yields the diagnostic listing `get_weather` and attempts
nothing. -/
theorem C7_witness :
    handle_tool_use (fun _ => Except.ok "r") (fun _ _ => Except.ok [])
        [⟨"get_weather", "d", none⟩] [] "TOOL_USE: search" "q"
      = ⟨"Tool \x27search\x27 not found. Available tools: get_weather", [], [], []⟩ :=
  C7_confirmed (fun _ => Except.ok "r") (fun _ _ => Except.ok [])
    [⟨"get_weather", "d", none⟩] [] "TOOL_USE: search" "q" "search" [] rfl rfl

/-! ### Claim C8 -/

/-- Claim C8 (confirmed): after any sequence of appends, the `clear`
command leaves the history empty (length 0), and rendering the context
over an empty history yields the preamble alone — the conversation-history
section and its lines are omitted entirely. -/
theorem C8_confirmed (gen : String → Except String String)
    (callRemote : String → List (String × Json) → Except String (List Fragment))
    (tools tools2 : List ToolDescriptor) (w w2 : Nat)
    (history msgs : List Message) :
    (shellStep gen callRemote tools w (history ++ msgs) "clear").history = []
    ∧ (shellStep gen callRemote tools w (history ++ msgs) "clear").history.length = 0
    ∧ build_conversation_context tools2 w2 []
      = "You are a helpful AI assistant with access to various tools.\n"
        ++ format_tools_for_prompt tools2 :=
  ⟨rfl, rfl, rfl⟩

/-! ### Claim C9 -/

/-- Claim C9 (confirmed): the prompt of the first model call of a turn is
the rendered context over the history with the user message already
appended, followed by the trailing cue — so it contains the current user
message twice: once as the last line of the history window (for every
window size: the slice always retains the final message) and once in the
trailing cue. -/
theorem C9_confirmed (gen : String → Except String String)
    (callRemote : String → List (String × Json) → Except String (List Fragment))
    (tools : List ToolDescriptor) (w : Nat) (history : List Message)
    (input : String) :
    (process_user_input gen callRemote tools w history input).llmPrompts.head?
      = some (firstPrompt tools w (history ++ [⟨"user", input⟩]) input)
    ∧ ∃ X : String, firstPrompt tools w (history ++ [⟨"user", input⟩]) input
        = (X ++ ("user: " ++ input ++ "\n")) ++ ("\nuser: " ++ input) ++ "\nassistant: " := by
  constructor
  · simp only [process_user_input]
    cases gen (firstPrompt tools w (history ++ [⟨"user", input⟩]) input) with
    | error e => rfl
    | ok response =>
      cases hts : hasSubstr toolUseLit response.data with
      | true => simp [hts]
      | false => simp [hts]
  · obtain ⟨X, hX⟩ := build_context_append_user tools w history input
    refine ⟨X, ?_⟩
    unfold firstPrompt
    rw [hX]
    simp only [String.append_assoc]

/-! ### Claim C10 -/

/-- Claim C10 (confirmed): when the first model reply contains the
`TOOL_USE:` marker but the directive is unparsable, or its parameters are
malformed, the diagnostic string is the output of the turn and is NOT
appended to the history: the turn leaves exactly the prior history plus
the user message, attempts no tool call, and sends no second prompt. -/
theorem C10_confirmed (gen : String → Except String String)
    (callRemote : String → List (String × Json) → Except String (List Fragment))
    (tools : List ToolDescriptor) (w : Nat) (history : List Message)
    (input response : String)
    (hg : gen (firstPrompt tools w (history ++ [⟨"user", input⟩]) input) = .ok response)
    (hts : hasSubstr toolUseLit response.data = true) :
    (parseDirective response = .unparsable →
      process_user_input gen callRemote tools w history input
        = ⟨history ++ [⟨"user", input⟩],
            .ok "I tried to use a tool but couldn\x27t parse the tool name.", [],
            [firstPrompt tools w (history ++ [⟨"user", input⟩]) input]⟩)
    ∧ (∀ t e : String, parseDirective response = .malformed t e →
      process_user_input gen callRemote tools w history input
        = ⟨history ++ [⟨"user", input⟩],
            .ok ("I tried to use " ++ t ++ " but the parameters were malformed: " ++ e),
            [], [firstPrompt tools w (history ++ [⟨"user", input⟩]) input]⟩) := by
  constructor
  · intro hpd
    simp only [process_user_input, hg]
    rw [if_pos hts]
    simp only [handle_tool_use, hpd]
  · intro t e hpd
    simp only [process_user_input, hg]
    rw [if_pos hts]
    simp only [handle_tool_use, hpd]

/-- Claim C10, witness: a model reply carrying the marker but no tool-name
token ends the turn with the diagnostic as output and only the user message
appended. -/
theorem C10_witness :
    parseDirective "TOOL_USE: !!!" = ParseOutcome.unparsable
    ∧ process_user_input (fun _ => Except.ok "TOOL_USE: !!!") (fun _ _ => Except.ok [])
        [] 20 [] "hi"
      = ⟨[⟨"user", "hi"⟩],
          .ok "I tried to use a tool but couldn\x27t parse the tool name.", [],
          [firstPrompt [] 20 [⟨"user", "hi"⟩] "hi"]⟩ :=
  ⟨rfl, (C10_confirmed (fun _ => Except.ok "TOOL_USE: !!!") (fun _ _ => Except.ok [])
    [] 20 [] "hi" "TOOL_USE: !!!" rfl rfl).1 rfl⟩

end MCP
